import Mathlib

/-!
Shallow embedding of `src/template_finder.py` (class `TemplateFinder`).

Images, the OpenCV kernel (`cv2.resize`, `cv2.matchTemplate`, `cv2.minMaxLoc`),
numpy cropping / averaging, the screen-capture source and the wall clock are
external collaborators of the core; they are modelled as oracle functions
bundled in an environment record.  Python floats are modelled as exact
rationals, Python `int()` as truncation toward zero.  The mutable instance
state of `TemplateFinder` (`self._templates`, `self.last_res`) is threaded
explicitly, and Python exceptions (`KeyError` from a dict lookup, `ValueError`
from `max` of an empty sequence) become an `Except` result.
-/

/-- A pixel buffer: `h`/`w` mirror `shape[0]`/`shape[1]`; `tag` stands for the
actual pixel contents, which only the oracles inspect. -/
structure Image where
  h : Nat
  w : Nat
  tag : Nat := 0
deriving DecidableEq, Repr

/-- The oracles for the external collaborators that `TemplateFinder.search`
calls, plus the configuration scalar it reads.  `matchTemplate` returns an
abstract identifier of the produced score field (the array stored in
`self.last_res`); `minMaxLoc` extracts `(max_val, max_pos_x, max_pos_y)`
from such a field. -/
structure Env where
  templateThreshold : Rat
  resize : Image → Rat → Image
  crop : Image → Int → Int → Int → Int → Image
  matchTemplate : Image → Image → Nat
  minMaxLoc : Nat → Rat × Int × Int
  convertScreenToMonitor : Int × Int → Int × Int

/-- The result record of a search, mirroring the `TemplateMatch` dataclass
with its field defaults (`name=None, score=-1.0, position=None, valid=False`). -/
structure TemplateMatch where
  name : Option String := none
  score : Rat := -1
  position : Option (Int × Int) := none
  valid : Bool := false
deriving DecidableEq, Repr

/-- The `ref` argument of `search`: a template key, a list of keys, or a raw
pixel buffer used directly as a template. -/
inductive Ref where
  | key : String → Ref
  | keys : List String → Ref
  | img : Image → Ref
deriving DecidableEq, Repr

/-- Python exceptions that the embedded code can raise: `KeyError` from the
template-dict lookup, `ValueError` from `max()` applied to an empty list. -/
inductive PyError where
  | keyError : String → PyError
  | valueError : PyError
deriving DecidableEq, Repr

/-- The mutable instance state of a `TemplateFinder`: the template store
`self._templates` (key, buffer, scale) and the diagnostic field
`self.last_res` (the most recent score field's identifier). -/
structure FinderState where
  templates : List (String × Image × Rat)
  lastRes : Option Nat := none
deriving DecidableEq, Repr

/-- Python `int()` on a float: truncation toward zero. -/
def pyInt (q : Rat) : Int :=
  if 0 ≤ q then ⌊q⌋ else ⌈q⌉

/-- Python `max` over a list: `none` models the `ValueError` raised on an
empty sequence. -/
def listMax : List Rat → Option Rat
  | [] => none
  | x :: xs =>
    some (match listMax xs with
      | none => x
      | some m => max x m)

/-- Python `list.index(v)`: index of the first occurrence of `v`. -/
def firstIdxOf : List Rat → Rat → Nat
  | [], _ => 0
  | x :: xs, v => if x = v then 0 else firstIdxOf xs v + 1

/-- Dict lookup `self._templates[key]`; `none` models a `KeyError`. -/
def lookupTemplate (T : List (String × Image × Rat)) (k : String) : Option (Image × Rat) :=
  (T.find? (fun e => e.1 = k)).map (fun e => e.2)

/-- The list comprehension `[self._templates[i] for i in ref]`: the first
missing key raises `KeyError`. -/
def lookupAll (T : List (String × Image × Rat)) : List String → Except PyError (List (Image × Rat))
  | [] => .ok []
  | k :: ks =>
    match lookupTemplate T k with
    | none => .error (.keyError k)
    | some e =>
      match lookupAll T ks with
      | .error err => .error err
      | .ok rest => .ok (e :: rest)

/-- `len(ref)` as used by `scores = [0] * len(ref)`: the length of the key
string, of the key list, or (for a raw numpy template) its number of rows. -/
def refLen : Ref → Nat
  | .key s => s.length
  | .keys l => l.length
  | .img t => t.h

/-- The `type(ref)` dispatch of `search` (lines 68-80): produces the
`templates`/`scales` entries, the `names` list (empty for a raw image, where
`names` is unbound in the source and the later `names[...]` access is
swallowed by `try/except`), and the effective `best_match` flag, which is
forced to `False` for a single key and for a raw image. -/
def dispatchRef (T : List (String × Image × Rat)) (ref : Ref) (bm : Bool) :
    Except PyError (List (Image × Rat) × List String × Bool) :=
  match ref with
  | .key s =>
    match lookupTemplate T s with
    | some e => .ok ([e], [s], false)
    | none => .error (.keyError s)
  | .keys ks =>
    match lookupAll T ks with
    | .ok es => .ok (es, ks, bm)
    | .error e => .error e
  | .img t => .ok ([(t, 1)], [], false)

/-- `roi = [0, 0, inp_img.shape[1], inp_img.shape[0]]` when absent. -/
def resolveRoi (img : Image) (roi? : Option (Int × Int × Int × Int)) : Int × Int × Int × Int :=
  roi?.getD (0, 0, (img.w : Int), (img.h : Int))

/-- The cropped search image `inp_img[ry:ry+rh, rx:rx+rw]`. -/
def croppedOf (env : Env) (img : Image) (roi? : Option (Int × Int × Int × Int)) : Image :=
  let r := resolveRoi img roi?
  env.crop img r.1 r.2.1 r.2.2.1 r.2.2.2

/-- Lines 98-102: the centre point computed from the correlation anchor
`(mx, my)`, half the template size, and the *current accumulated* scaled ROI
origin `(rx, ry)`, then truncated back by `1/scale`, optionally converted to
monitor space. -/
def centerPoint (env : Env) (nm : Bool) (t : Image) (s : Rat) (mx my : Int) (rx ry : Rat) :
    Int × Int :=
  let q1 : Rat := (mx : Rat) + ((t.w / 2 : Nat) : Rat) + rx
  let q2 : Rat := (my : Rat) + ((t.h / 2 : Nat) : Rat) + ry
  let rp : Int × Int := (pyInt (q1 * (1 / s)), pyInt (q2 * (1 / s)))
  if nm then env.convertScreenToMonitor rp else rp

/-- The state of the candidate loop after it finishes or returns early. -/
structure LoopOut where
  st : FinderState
  scores : List Rat
  refPoints : List (Int × Int)
  earlyRet : Option TemplateMatch
deriving DecidableEq, Repr

/-- The `for count, template in enumerate(templates)` loop of `search`
(lines 84-113).  `rx`/`ry` are the ROI origin values, multiplied by the
candidate's scale on every iteration exactly as the source's `rx *= scale`
does; `st` carries `self.last_res`; `scores`/`refPoints` are the best-match
bookkeeping arrays; an early return happens on a first-match hit. -/
def searchLoop (env : Env) (names : List String) (nm bm : Bool) (th : Rat) (cr : Image) :
    List (Image × Rat) → Nat → Rat → Rat → FinderState → List Rat → List (Int × Int) → LoopOut
  | [], _, _, _, st, scores, pts => ⟨st, scores, pts, none⟩
  | (t, s) :: rest, count, rx, ry, st, scores, pts =>
    let img := env.resize cr s
    let rx := rx * s
    let ry := ry * s
    if img.h > t.h ∧ img.w > t.w then
      let tag := env.matchTemplate img t
      let st := { st with lastRes := some tag }
      let r := env.minMaxLoc tag
      if r.1 > th then
        let rp := centerPoint env nm t s r.2.1 r.2.2 rx ry
        if bm then
          searchLoop env names nm bm th cr rest (count + 1) rx ry st
            (scores.set count r.1) (pts.set count rp)
        else
          ⟨st, scores, pts,
            some { name := names[count]?, score := r.1, position := some rp, valid := true }⟩
      else
        searchLoop env names nm bm th cr rest (count + 1) rx ry st scores pts
    else
      searchLoop env names nm bm th cr rest (count + 1) rx ry st scores pts

/-- Lines 82-123 after the `ref` dispatch: run the candidate loop starting
from `scores = [0]*len(ref)`, `ref_points = [(0,0)]*len(ref)`, then the final
`if max(scores) > 0` best-match selection (`max` of an empty list raises). -/
def searchFinish (env : Env) (names : List String) (nm bm : Bool) (th : Rat) (cr : Image)
    (entries : List (Image × Rat)) (n : Nat) (rx ry : Rat) (st : FinderState) :
    FinderState × Except PyError TemplateMatch :=
  let out := searchLoop env names nm bm th cr entries 0 rx ry st
    (List.replicate n 0) (List.replicate n (0, 0))
  match out.earlyRet with
  | some tm => (out.st, .ok tm)
  | none =>
    match listMax out.scores with
    | none => (out.st, .error .valueError)
    | some m =>
      if m > 0 then
        let idx := firstIdxOf out.scores m
        (out.st, .ok { name := names[idx]?, score := m,
                       position := some (out.refPoints.getD idx (0, 0)), valid := true })
      else
        (out.st, .ok {})

/-- `TemplateFinder.search` (lines 43-123): resolve the threshold from the
configuration when absent, default and crop the ROI, dispatch on the shape of
`ref`, run the candidate loop and the final selection.  Returns the updated
instance state together with the result or the raised exception. -/
def search (env : Env) (st : FinderState) (ref : Ref) (inpImg : Image)
    (thr? : Option Rat) (roi? : Option (Int × Int × Int × Int)) (nm bm : Bool) :
    FinderState × Except PyError TemplateMatch :=
  let th := thr?.getD env.templateThreshold
  let r := resolveRoi inpImg roi?
  let cr := croppedOf env inpImg roi?
  match dispatchRef st.templates ref bm with
  | .error e => (st, .error e)
  | .ok (entries, names, bm') =>
    searchFinish env names nm bm' th cr entries (refLen ref) (r.1 : Rat) (r.2.1 : Rat) st

/-!  The poll loop `TemplateFinder.search_and_wait` (lines 125-158).  The
screen-capture collaborator, the wall clock, and the numpy average over the
configured left diagnostic strip (`np.average(img[:, 0:w])`) are oracles in a
`WaitEnv`: `grab n` is the image captured at iteration `n`, `timeAt n` the
`time.time()` value at iteration `n`'s timeout check, `startTime` the value
recorded at `start = time.time()`.  The diagnostic screenshot written on
timeout is a pure side effect and does not influence the returned value. -/

/-- Environment of the poll loop. -/
structure WaitEnv where
  env : Env
  grab : Nat → Image
  timeAt : Nat → Rat
  startTime : Rat
  avgStrip : Image → Rat

instance {e a : Type} [DecidableEq e] [DecidableEq a] : DecidableEq (Except e a)
  | .error x, .error y =>
    decidable_of_iff (x = y) ⟨by rintro rfl; rfl, by intro h; cases h; rfl⟩
  | .error _, .ok _ => .isFalse (by intro h; cases h)
  | .ok _, .error _ => .isFalse (by intro h; cases h)
  | .ok x, .ok y =>
    decidable_of_iff (x = y) ⟨by rintro rfl; rfl, by intro h; cases h; rfl⟩

/-- What one iteration of the `while 1` loop does: exit with a value (or with
an exception propagating out of `search`), or continue polling. -/
inductive SawStep where
  | ret : Except PyError TemplateMatch → SawStep
  | cont : SawStep
deriving DecidableEq, Repr

/-- One iteration of the poll loop body (lines 149-158): capture, search,
compute the loading heuristic, and only when the heuristic is inactive or the
reference contains the sentinel key `"LOADING"` test the found / timeout
terminals.  `th` is the threshold already resolved at loop entry. -/
def sawStep (W : WaitEnv) (ks : List String) (roi? : Option (Int × Int × Int × Int))
    (th : Rat) (tout : Option Rat) (bm : Bool) (st : FinderState) (n : Nat) :
    FinderState × SawStep :=
  let img := W.grab n
  let res := search W.env st (.keys ks) img (some th) roi? false bm
  match res.2 with
  | .error e => (res.1, .ret (.error e))
  | .ok tm =>
    if ¬ W.avgStrip img < 1 ∨ "LOADING" ∈ ks then
      if tm.valid then (res.1, .ret (.ok tm))
      else
        match tout with
        | some t =>
          if W.timeAt n - W.startTime > t then (res.1, .ret (.ok tm)) else (res.1, .cont)
        | none => (res.1, .cont)
    else (res.1, .cont)

/-- The `while 1` loop, bounded by `fuel` iterations: `none` means the loop
has not reached a terminal within `fuel` iterations. -/
def sawRun (W : WaitEnv) (ks : List String) (roi? : Option (Int × Int × Int × Int))
    (th : Rat) (tout : Option Rat) (bm : Bool) :
    FinderState → Nat → Nat → Option (Except PyError TemplateMatch)
  | _, 0, _ => none
  | st, fuel + 1, n =>
    match sawStep W ks roi? th tout bm st n with
    | (_, .ret r) => some r
    | (st', .cont) => sawRun W ks roi? th tout bm st' fuel (n + 1)

/-- `TemplateFinder.search_and_wait` on a list reference (a single string key
is normalized to `[key]` on entry, line 143-144), with the threshold resolved
from the configuration when absent, observed through a fuel bound. -/
def searchAndWaitFuel (W : WaitEnv) (ks : List String)
    (roi? : Option (Int × Int × Int × Int)) (thr? : Option Rat) (tout : Option Rat)
    (bm : Bool) (st : FinderState) (fuel : Nat) : Option (Except PyError TemplateMatch) :=
  sawRun W ks roi? (thr?.getD W.env.templateThreshold) tout bm st fuel 0

/-- The poll loop never reaches a terminal, whatever iteration bound is
granted: `search_and_wait` loops forever on this input. -/
def sawNeverReturns (W : WaitEnv) (ks : List String)
    (roi? : Option (Int × Int × Int × Int)) (thr? : Option Rat) (tout : Option Rat)
    (bm : Bool) (st : FinderState) : Prop :=
  ∀ fuel, searchAndWaitFuel W ks roi? thr? tout bm st fuel = none

/-!  Derived per-candidate views of the loop, used to state the claims.  They
are computed from exactly the same oracle calls the loop makes. -/

/-- The correlation maximum a candidate evaluates to, or `none` when the
size guard of line 94 skips it. -/
def candScore (env : Env) (cr : Image) (e : Image × Rat) : Option Rat :=
  let img := env.resize cr e.2
  if img.h > e.1.h ∧ img.w > e.1.w then
    some (env.minMaxLoc (env.matchTemplate img e.1)).1
  else none

/-- Whether a candidate is evaluated and exceeds the threshold. -/
def candHit (env : Env) (cr : Image) (th : Rat) (e : Image × Rat) : Bool :=
  match candScore env cr e with
  | some v => decide (v > th)
  | none => false

/-- The value the best-match bookkeeping records for a candidate: its score
when it is evaluated and exceeds the threshold, else the initial `0`. -/
def recScore (env : Env) (cr : Image) (th : Rat) (e : Image × Rat) : Rat :=
  match candScore env cr e with
  | some v => if v > th then v else 0
  | none => 0

/-- The positions the best-match bookkeeping records, one per candidate, with
the ROI origin `(rx, ry)` multiplied by each candidate's scale in turn just as
the loop's `rx *= scale` does. -/
def recPointList (env : Env) (cr : Image) (th : Rat) (nm : Bool) :
    List (Image × Rat) → Rat → Rat → List (Int × Int)
  | [], _, _ => []
  | (t, s) :: es, rx, ry =>
    let img := env.resize cr s
    let rx := rx * s
    let ry := ry * s
    let p : Int × Int :=
      if img.h > t.h ∧ img.w > t.w then
        let r := env.minMaxLoc (env.matchTemplate img t)
        if r.1 > th then centerPoint env nm t s r.2.1 r.2.2 rx ry else (0, 0)
      else (0, 0)
    p :: recPointList env cr th nm es rx ry

/-- Modelled from the spec: the centre position the spec's steps 4-5 describe
for a candidate — the anchor offset by half the template size, plus the
original ROI origin multiplied by this candidate's own scale factor `s` alone,
then divided by `s` back into the original coordinate space.  Stated for
comparison with what the code computes (claim C4). -/
def specCenterPosition (env : Env) (nm : Bool) (t : Image) (s : Rat) (mx my : Int)
    (rx0 ry0 : Rat) : Int × Int :=
  centerPoint env nm t s mx my (rx0 * s) (ry0 * s)

/-!  Concrete stubs used by the closed counterexamples and witnesses.  The
resize stub always produces a 30x30 buffer so that every 4x4 template passes
the size guard; `matchTemplate` hands the template's content tag to
`minMaxLoc`, which turns it into a prescribed score with anchor `(0, 0)`. -/

/-- Stub collaborators with a prescribed tag-to-score table. -/
def stubEnv (score : Nat → Rat) : Env where
  templateThreshold := 1/2
  resize := fun img _ => { h := 30, w := 30, tag := img.tag }
  crop := fun img _ _ _ _ => img
  matchTemplate := fun _ t => t.tag
  minMaxLoc := fun tag => (score tag, 0, 0)
  convertScreenToMonitor := id

/-- 4x4 template buffers with distinct content tags. -/
def tmpl1 : Image := ⟨4, 4, 1⟩

def tmpl2 : Image := ⟨4, 4, 2⟩

def tmpl3 : Image := ⟨4, 4, 3⟩

/-- A 100x100 captured frame. -/
def bigImg : Image := ⟨100, 100, 0⟩

/-- A 100x100 all-black captured frame (its left strip averages to 0). -/
def blackImg : Image := ⟨100, 100, 9⟩

/-- Store with three templates "A", "B", "C", all at scale 1. -/
def stABC : FinderState := { templates := [("A", tmpl1, 1), ("B", tmpl2, 1), ("C", tmpl3, 1)] }

/-- Store with the single template "A" at scale 1. -/
def stA : FinderState := { templates := [("A", tmpl1, 1)] }

/-- Store with the single template "X" at scale 1. -/
def stX : FinderState := { templates := [("X", tmpl1, 1)] }

/-- Store with heterogeneous scales: "A" at scale 2, "B" at scale 1. -/
def stAB2 : FinderState := { templates := [("A", tmpl1, 2), ("B", tmpl2, 1)] }

/-- Poll-loop stub: every capture matches with score 9/10, but the left strip
of the captured frame averages to 0, so the loading heuristic always fires. -/
def waitLoadingValid : WaitEnv where
  env := stubEnv (fun _ => 9/10)
  grab := fun _ => bigImg
  timeAt := fun n => (n : Rat)
  startTime := 0
  avgStrip := fun _ => 0

/-- Poll-loop stub: every capture matches with score 9/10 and the loading
heuristic never fires (strip average 5). -/
def waitClearValid : WaitEnv where
  env := stubEnv (fun _ => 9/10)
  grab := fun _ => bigImg
  timeAt := fun n => (n : Rat) + 1
  startTime := 0
  avgStrip := fun _ => 5

/-- Poll-loop stub: every capture is an all-black non-matching frame (score 0,
strip average 0), and the clock advances by one unit per iteration. -/
def waitBlackStub : WaitEnv where
  env := stubEnv (fun _ => 0)
  grab := fun _ => blackImg
  timeAt := fun n => (n : Rat) + 1
  startTime := 0
  avgStrip := fun _ => 0

/-- Poll-loop stub: every capture is non-matching (score 0) but the loading
heuristic never fires (strip average 5); the clock advances per iteration. -/
def waitClearMiss : WaitEnv where
  env := stubEnv (fun _ => 0)
  grab := fun _ => bigImg
  timeAt := fun n => (n : Rat) + 1
  startTime := 0
  avgStrip := fun _ => 5

/-!  Helper lemmas about the list primitives. -/

theorem set_append_len {α : Type} (pre : List α) (x : α) (rest : List α) (v : α) :
    (pre ++ x :: rest).set pre.length v = pre ++ v :: rest := by
  induction pre with
  | nil => rfl
  | cons a l ih => simp [List.set, ih]

theorem lookupAll_length {T : List (String × Image × Rat)} {ks : List String}
    {es : List (Image × Rat)} (h : lookupAll T ks = .ok es) : es.length = ks.length := by
  induction ks generalizing es with
  | nil => cases h; rfl
  | cons k ks ih =>
    unfold lookupAll at h
    cases hl : lookupTemplate T k with
    | none => rw [hl] at h; cases h
    | some e =>
      rw [hl] at h
      cases hr : lookupAll T ks with
      | error err => rw [hr] at h; cases h
      | ok rest => rw [hr] at h; cases h; simp [ih hr]

theorem lookupAll_err {T : List (String × Image × Rat)} {ks : List String} {k : String}
    (hk : k ∈ ks) (h : lookupTemplate T k = none) :
    ∃ k2, lookupTemplate T k2 = none ∧ lookupAll T ks = .error (.keyError k2) := by
  induction ks with
  | nil => cases hk
  | cons k0 ks ih =>
    unfold lookupAll
    cases hl : lookupTemplate T k0 with
    | none => exact ⟨k0, hl, rfl⟩
    | some e =>
      have hk' : k ∈ ks := by
        cases hk with
        | head => rw [h] at hl; cases hl
        | tail _ htl => exact htl
      obtain ⟨k2, h2, he⟩ := ih hk'
      exact ⟨k2, h2, by rw [he]⟩

theorem listMax_eq_none {l : List Rat} : listMax l = none ↔ l = [] := by
  cases l <;> simp [listMax]

theorem listMax_mem {l : List Rat} {m : Rat} (h : listMax l = some m) : m ∈ l := by
  induction l generalizing m with
  | nil => cases h
  | cons x xs ih =>
    unfold listMax at h
    cases hx : listMax xs with
    | none =>
      rw [hx] at h
      simp at h
      rw [← h]
      exact .head _
    | some m' =>
      rw [hx] at h
      simp at h
      rcases max_cases x m' with ⟨he, _⟩ | ⟨he, _⟩ <;> rw [← h, he]
      · exact .head _
      · exact .tail _ (ih hx)

theorem listMax_le {l : List Rat} {m : Rat} (h : listMax l = some m) : ∀ y ∈ l, y ≤ m := by
  induction l generalizing m with
  | nil => intro y hy; cases hy
  | cons x xs ih =>
    unfold listMax at h
    intro y hy
    cases hx : listMax xs with
    | none =>
      rw [hx] at h
      simp at h
      rcases listMax_eq_none.mp hx with rfl
      rcases List.mem_singleton.mp hy with rfl
      exact le_of_eq h
    | some m' =>
      rw [hx] at h
      simp at h
      subst h
      cases hy with
      | head => exact le_max_left _ _
      | tail _ hy' => exact le_trans (ih hx y hy') (le_max_right _ _)

theorem listMax_cons (x : Rat) (xs : List Rat) : ∃ m, listMax (x :: xs) = some m :=
  ⟨_, rfl⟩

theorem firstIdxOf_le {l : List Rat} {v : Rat} {i : Nat} (h : l[i]? = some v) :
    firstIdxOf l v ≤ i := by
  induction l generalizing i with
  | nil => simp at h
  | cons x xs ih =>
    unfold firstIdxOf
    by_cases hx : x = v
    · simp [hx]
    · rw [if_neg hx]
      cases i with
      | zero => simp at h; exact absurd h hx
      | succ j =>
        have := ih (by simpa using h)
        omega

theorem firstIdxOf_getElem {l : List Rat} {v : Rat} (h : v ∈ l) :
    l[firstIdxOf l v]? = some v := by
  induction l with
  | nil => cases h
  | cons x xs ih =>
    unfold firstIdxOf
    by_cases hx : x = v
    · simp [hx]
    · rw [if_neg hx]
      have hm : v ∈ xs := by
        cases h with
        | head => exact absurd rfl hx
        | tail _ ht => exact ht
      simpa using ih hm

theorem firstIdxOf_lt_ne {l : List Rat} {v : Rat} {j : Nat} (hj : j < firstIdxOf l v) :
    l[j]? ≠ some v := by
  induction l generalizing j with
  | nil => simp
  | cons x xs ih =>
    unfold firstIdxOf at hj
    by_cases hx : x = v
    · rw [if_pos hx] at hj; omega
    · rw [if_neg hx] at hj
      cases j with
      | zero => simpa using hx
      | succ j' =>
        have := @ih j' (by omega)
        simpa using this

theorem recScore_cases (env : Env) (cr : Image) (th : Rat) (e : Image × Rat) :
    recScore env cr th e = 0 ∨
      (candScore env cr e = some (recScore env cr th e) ∧ th < recScore env cr th e) := by
  cases hc : candScore env cr e with
  | none => exact .inl (by simp [recScore, hc])
  | some v =>
    by_cases hv : th < v
    · exact .inr ⟨by simp [recScore, hc, hv], by simp [recScore, hc, hv]⟩
    · exact .inl (by simp [recScore, hc, hv])

theorem recScore_of_hit {env : Env} {cr : Image} {th v : Rat} {e : Image × Rat}
    (hc : candScore env cr e = some v) (hv : th < v) : recScore env cr th e = v := by
  simp [recScore, hc, hv]

theorem recScore_of_miss {env : Env} {cr : Image} {th : Rat} {e : Image × Rat}
    (h : ∀ v, candScore env cr e = some v → v ≤ th) : recScore env cr th e = 0 := by
  cases hc : candScore env cr e with
  | none => simp [recScore, hc]
  | some v => simp [recScore, hc, not_lt.mpr (h v hc)]

/-!  Characterizations of the candidate loop. -/

theorem searchLoop_fm_first (env : Env) (names : List String) (nm : Bool) (th : Rat)
    (cr : Image) {t : Image} {s v : Rat} {mx my : Int} :
    ∀ (entries : List (Image × Rat)) (i count : Nat) (rx ry : Rat) (st : FinderState)
      (scores : List Rat) (pts : List (Int × Int)),
      entries[i]? = some (t, s) →
      (∀ j, j < i → ∀ e, entries[j]? = some e → candHit env cr th e = false) →
      ((env.resize cr s).h > t.h ∧ (env.resize cr s).w > t.w) →
      env.minMaxLoc (env.matchTemplate (env.resize cr s) t) = (v, mx, my) →
      th < v →
      (searchLoop env names nm false th cr entries count rx ry st scores pts).earlyRet
        = some { name := names[count + i]?, score := v,
                 position := some (centerPoint env nm t s mx my
                    (rx * ((entries.take (i + 1)).map Prod.snd).prod)
                    (ry * ((entries.take (i + 1)).map Prod.snd).prod)),
                 valid := true } := by
  intro entries
  induction entries with
  | nil => intro i count rx ry st scores pts hi; simp at hi
  | cons e0 rest ih =>
    intro i count rx ry st scores pts hi hbefore hg hmm hv
    obtain ⟨t0, s0⟩ := e0
    cases i with
    | zero =>
      simp only [List.getElem?_cons_zero, Option.some.injEq, Prod.mk.injEq] at hi
      obtain ⟨rfl, rfl⟩ := hi
      simp only [searchLoop]
      rw [if_pos hg]
      rw [hmm]
      rw [if_pos hv]
      simp only [Bool.false_eq_true, if_false]
      simp [List.take_succ_cons]
    | succ i' =>
      have hmiss : candHit env cr th (t0, s0) = false :=
        hbefore 0 (Nat.succ_pos _) (t0, s0) (by simp)
      have hstep : ∀ st2 : FinderState,
          (searchLoop env names nm false th cr ((t0, s0) :: rest) count rx ry st scores
              pts).earlyRet
          = (searchLoop env names nm false th cr rest (count + 1) (rx * s0) (ry * s0)
              (if (env.resize cr s0).h > t0.h ∧ (env.resize cr s0).w > t0.w then
                { st with lastRes := some (env.matchTemplate (env.resize cr s0) t0) }
               else st) scores pts).earlyRet := by
        intro _
        by_cases hg0 : (env.resize cr s0).h > t0.h ∧ (env.resize cr s0).w > t0.w
        · have hcs : candScore env cr (t0, s0)
              = some (env.minMaxLoc (env.matchTemplate (env.resize cr s0) t0)).1 := by
            simp [candScore, hg0]
          have hv0 : ¬ (env.minMaxLoc (env.matchTemplate (env.resize cr s0) t0)).1 > th := by
            rw [candHit, hcs] at hmiss
            simpa using hmiss
          simp only [searchLoop]
          rw [if_pos hg0, if_neg hv0, if_pos hg0]
        · simp only [searchLoop]
          rw [if_neg hg0, if_neg hg0]
      rw [hstep st]
      have hrest := ih i' (count + 1) (rx * s0) (ry * s0)
        (if (env.resize cr s0).h > t0.h ∧ (env.resize cr s0).w > t0.w then
          { st with lastRes := some (env.matchTemplate (env.resize cr s0) t0) }
         else st) scores pts
        (by simpa using hi)
        (by
          intro j hj e he
          exact hbefore (j + 1) (by omega) e (by simpa using he))
        hg hmm hv
      rw [hrest]
      have harith : count + 1 + i' = count + (i' + 1) := by omega
      have htake : ((((t0, s0) :: rest).take (i' + 1 + 1)).map Prod.snd).prod
          = s0 * (((rest.take (i' + 1)).map Prod.snd).prod) := by
        simp [List.take_succ_cons]
      rw [harith, htake]
      have hmul : ∀ q : Rat, q * s0 * ((rest.take (i' + 1)).map Prod.snd).prod
          = q * (s0 * ((rest.take (i' + 1)).map Prod.snd).prod) := by
        intro q; ring
      rw [hmul rx, hmul ry]

theorem searchLoop_templates (env : Env) (names : List String) (nm bm : Bool) (th : Rat)
    (cr : Image) :
    ∀ (entries : List (Image × Rat)) (count : Nat) (rx ry : Rat) (st : FinderState)
      (scores : List Rat) (pts : List (Int × Int)),
      (searchLoop env names nm bm th cr entries count rx ry st scores pts).st.templates
        = st.templates := by
  intro entries
  induction entries with
  | nil => intro count rx ry st scores pts; rfl
  | cons e rest ih =>
    intro count rx ry st scores pts
    obtain ⟨t, s⟩ := e
    simp only [searchLoop]
    split
    · split
      · split
        · exact ih ..
        · rfl
      · exact ih ..
    · exact ih ..

theorem set_append_len2 {α : Type} {n : Nat} (pre : List α) (x : α) (rest : List α) (v : α)
    (h : pre.length = n) : (pre ++ x :: rest).set n v = pre ++ v :: rest := by
  subst h
  exact set_append_len pre x rest v

theorem searchLoop_bm (env : Env) (names : List String) (nm : Bool) (th : Rat) (cr : Image) :
    ∀ (entries : List (Image × Rat)) (rx ry : Rat) (st : FinderState)
      (pre : List Rat) (preP : List (Int × Int)),
      preP.length = pre.length →
      (searchLoop env names nm true th cr entries pre.length rx ry st
          (pre ++ List.replicate entries.length 0)
          (preP ++ List.replicate entries.length (0, 0))).earlyRet = none
      ∧ (searchLoop env names nm true th cr entries pre.length rx ry st
          (pre ++ List.replicate entries.length 0)
          (preP ++ List.replicate entries.length (0, 0))).scores
          = pre ++ entries.map (recScore env cr th)
      ∧ (searchLoop env names nm true th cr entries pre.length rx ry st
          (pre ++ List.replicate entries.length 0)
          (preP ++ List.replicate entries.length (0, 0))).refPoints
          = preP ++ recPointList env cr th nm entries rx ry := by
  intro entries
  induction entries with
  | nil =>
    intro rx ry st pre preP hlen
    simp [searchLoop, recPointList]
  | cons e rest ih =>
    intro rx ry st pre preP hlen
    obtain ⟨t, s⟩ := e
    have hshape : ∀ out : LoopOut,
        out = searchLoop env names nm true th cr ((t, s) :: rest) pre.length rx ry st
          (pre ++ List.replicate ((t, s) :: rest).length 0)
          (preP ++ List.replicate ((t, s) :: rest).length (0, 0)) →
        out.earlyRet = none
        ∧ out.scores = pre ++ ((t, s) :: rest).map (recScore env cr th)
        ∧ out.refPoints = preP ++ recPointList env cr th nm ((t, s) :: rest) rx ry := by
      intro out hout
      rw [List.length_cons, List.replicate_succ, List.replicate_succ] at hout
      by_cases hg : (env.resize cr s).h > t.h ∧ (env.resize cr s).w > t.w
      · by_cases hv : (env.minMaxLoc (env.matchTemplate (env.resize cr s) t)).1 > th
        · -- candidate recorded
          have hcs : candScore env cr (t, s)
              = some (env.minMaxLoc (env.matchTemplate (env.resize cr s) t)).1 := by
            simp [candScore, hg]
          have hrec := recScore_of_hit hcs hv
          simp only [searchLoop] at hout
          rw [if_pos hg, if_pos hv, if_true] at hout
          rw [set_append_len2 _ _ _ _ rfl, set_append_len2 _ _ _ _ hlen] at hout
          have e1 : pre ++ (env.minMaxLoc (env.matchTemplate (env.resize cr s) t)).1
              :: List.replicate rest.length 0
              = (pre ++ [(env.minMaxLoc (env.matchTemplate (env.resize cr s) t)).1])
                ++ List.replicate rest.length 0 := by simp
          have e2 : preP ++ centerPoint env nm t s
                (env.minMaxLoc (env.matchTemplate (env.resize cr s) t)).2.1
                (env.minMaxLoc (env.matchTemplate (env.resize cr s) t)).2.2 (rx * s) (ry * s)
              :: List.replicate rest.length (0, 0)
              = (preP ++ [centerPoint env nm t s
                  (env.minMaxLoc (env.matchTemplate (env.resize cr s) t)).2.1
                  (env.minMaxLoc (env.matchTemplate (env.resize cr s) t)).2.2 (rx * s) (ry * s)])
                ++ List.replicate rest.length (0, 0) := by simp
          have e3 : pre.length + 1
              = (pre ++ [(env.minMaxLoc (env.matchTemplate (env.resize cr s) t)).1]).length := by
            simp
          rw [e1, e2, e3] at hout
          obtain ⟨ih1, ih2, ih3⟩ := ih (rx * s) (ry * s)
            { st with lastRes := some (env.matchTemplate (env.resize cr s) t) }
            (pre ++ [(env.minMaxLoc (env.matchTemplate (env.resize cr s) t)).1])
            (preP ++ [centerPoint env nm t s
                (env.minMaxLoc (env.matchTemplate (env.resize cr s) t)).2.1
                (env.minMaxLoc (env.matchTemplate (env.resize cr s) t)).2.2 (rx * s) (ry * s)])
            (by simp [hlen])
          subst hout
          refine ⟨ih1, ?_, ?_⟩
          · rw [ih2, List.map_cons, hrec]
            simp
          · rw [ih3]
            have : recPointList env cr th nm ((t, s) :: rest) rx ry
                = centerPoint env nm t s
                    (env.minMaxLoc (env.matchTemplate (env.resize cr s) t)).2.1
                    (env.minMaxLoc (env.matchTemplate (env.resize cr s) t)).2.2 (rx * s) (ry * s)
                  :: recPointList env cr th nm rest (rx * s) (ry * s) := by
              simp only [recPointList]
              rw [if_pos hg, if_pos hv]
            rw [this]
            simp
        · -- candidate evaluated but below threshold
          have hcs : candScore env cr (t, s)
              = some (env.minMaxLoc (env.matchTemplate (env.resize cr s) t)).1 := by
            simp [candScore, hg]
          have hrec : recScore env cr th (t, s) = 0 := by
            simp [recScore, hcs, hv]
          simp only [searchLoop] at hout
          rw [if_pos hg, if_neg hv] at hout
          have e1 : pre ++ (0 : Rat) :: List.replicate rest.length 0
              = (pre ++ [(0 : Rat)]) ++ List.replicate rest.length 0 := by simp
          have e2 : preP ++ ((0, 0) : Int × Int) :: List.replicate rest.length (0, 0)
              = (preP ++ [((0, 0) : Int × Int)]) ++ List.replicate rest.length (0, 0) := by simp
          have e3 : pre.length + 1 = (pre ++ [(0 : Rat)]).length := by simp
          rw [e1, e2, e3] at hout
          obtain ⟨ih1, ih2, ih3⟩ := ih (rx * s) (ry * s)
            { st with lastRes := some (env.matchTemplate (env.resize cr s) t) }
            (pre ++ [(0 : Rat)]) (preP ++ [((0, 0) : Int × Int)]) (by simp [hlen])
          subst hout
          refine ⟨ih1, ?_, ?_⟩
          · rw [ih2, List.map_cons, hrec]
            simp
          · rw [ih3]
            have : recPointList env cr th nm ((t, s) :: rest) rx ry
                = ((0, 0) : Int × Int) :: recPointList env cr th nm rest (rx * s) (ry * s) := by
              simp only [recPointList]
              rw [if_pos hg, if_neg hv]
            rw [this]
            simp
      · -- size guard skips the candidate
        have hrec : recScore env cr th (t, s) = 0 := by
          simp [recScore, candScore, hg]
        simp only [searchLoop] at hout
        rw [if_neg hg] at hout
        have e1 : pre ++ (0 : Rat) :: List.replicate rest.length 0
            = (pre ++ [(0 : Rat)]) ++ List.replicate rest.length 0 := by simp
        have e2 : preP ++ ((0, 0) : Int × Int) :: List.replicate rest.length (0, 0)
            = (preP ++ [((0, 0) : Int × Int)]) ++ List.replicate rest.length (0, 0) := by simp
        have e3 : pre.length + 1 = (pre ++ [(0 : Rat)]).length := by simp
        rw [e1, e2, e3] at hout
        obtain ⟨ih1, ih2, ih3⟩ := ih (rx * s) (ry * s) st
          (pre ++ [(0 : Rat)]) (preP ++ [((0, 0) : Int × Int)]) (by simp [hlen])
        subst hout
        refine ⟨ih1, ?_, ?_⟩
        · rw [ih2, List.map_cons, hrec]
          simp
        · rw [ih3]
          have : recPointList env cr th nm ((t, s) :: rest) rx ry
              = ((0, 0) : Int × Int) :: recPointList env cr th nm rest (rx * s) (ry * s) := by
            simp only [recPointList]
            rw [if_neg hg]
          rw [this]
          simp
    exact hshape _ rfl

theorem searchLoop_early (env : Env) (names : List String) (nm bm : Bool) (th : Rat)
    (cr : Image) :
    ∀ (entries : List (Image × Rat)) (count : Nat) (rx ry : Rat) (st : FinderState)
      (scores : List Rat) (pts : List (Int × Int)) (tm : TemplateMatch),
      (searchLoop env names nm bm th cr entries count rx ry st scores pts).earlyRet = some tm →
      tm.valid = true ∧ tm.position.isSome = true ∧ th < tm.score := by
  intro entries
  induction entries with
  | nil => intro count rx ry st scores pts tm h; cases h
  | cons e rest ih =>
    intro count rx ry st scores pts tm h
    obtain ⟨t, s⟩ := e
    simp only [searchLoop] at h
    split at h
    case isTrue hg =>
      split at h
      case isTrue hv =>
        split at h
        case isTrue hbm => exact ih _ _ _ _ _ _ _ h
        case isFalse hbm =>
          injection h with h
          subst h
          exact ⟨rfl, rfl, hv⟩
      case isFalse hv => exact ih _ _ _ _ _ _ _ h
    case isFalse hg => exact ih _ _ _ _ _ _ _ h

theorem searchLoop_fm_scores (env : Env) (names : List String) (nm : Bool) (th : Rat)
    (cr : Image) :
    ∀ (entries : List (Image × Rat)) (count : Nat) (rx ry : Rat) (st : FinderState)
      (scores : List Rat) (pts : List (Int × Int)),
      (searchLoop env names nm false th cr entries count rx ry st scores pts).scores
        = scores := by
  intro entries
  induction entries with
  | nil => intro count rx ry st scores pts; rfl
  | cons e rest ih =>
    intro count rx ry st scores pts
    obtain ⟨t, s⟩ := e
    simp only [searchLoop]
    split
    · split
      · split
        · rename_i hbm; cases hbm
        · rfl
      · exact ih ..
    · exact ih ..

theorem searchFinish_templates (env : Env) (names : List String) (nm bm : Bool) (th : Rat)
    (cr : Image) (entries : List (Image × Rat)) (n : Nat) (rx ry : Rat) (st : FinderState) :
    (searchFinish env names nm bm th cr entries n rx ry st).1.templates = st.templates := by
  simp only [searchFinish]
  split
  · exact searchLoop_templates ..
  · split
    · exact searchLoop_templates ..
    · split
      · exact searchLoop_templates ..
      · exact searchLoop_templates ..

theorem search_err {env : Env} {st : FinderState} {ref : Ref} {inpImg : Image}
    {thr? : Option Rat} {roi? : Option (Int × Int × Int × Int)} {nm bm : Bool} {e : PyError}
    (hd : dispatchRef st.templates ref bm = .error e) :
    search env st ref inpImg thr? roi? nm bm = (st, .error e) := by
  simp only [search]
  rw [hd]

theorem search_eq {env : Env} {st : FinderState} {ref : Ref} {inpImg : Image}
    {thr? : Option Rat} {roi? : Option (Int × Int × Int × Int)} {nm bm : Bool}
    {entries : List (Image × Rat)} {names : List String} {bm' : Bool}
    (hd : dispatchRef st.templates ref bm = .ok (entries, names, bm')) :
    search env st ref inpImg thr? roi? nm bm
      = searchFinish env names nm bm' (thr?.getD env.templateThreshold)
          (croppedOf env inpImg roi?) entries (refLen ref)
          ((resolveRoi inpImg roi?).1 : Rat) ((resolveRoi inpImg roi?).2.1 : Rat) st := by
  simp only [search]
  rw [hd]

theorem dispatchRef_bm_length {T : List (String × Image × Rat)} {ref : Ref} {bm : Bool}
    {entries : List (Image × Rat)} {names : List String}
    (hd : dispatchRef T ref bm = .ok (entries, names, true)) :
    refLen ref = entries.length := by
  cases ref with
  | key s =>
    simp only [dispatchRef] at hd
    cases hl : lookupTemplate T s <;> rw [hl] at hd <;> simp at hd
  | keys ks =>
    simp only [dispatchRef] at hd
    cases hl : lookupAll T ks with
    | error e => rw [hl] at hd; cases hd
    | ok es =>
      rw [hl] at hd
      simp only [Except.ok.injEq, Prod.mk.injEq] at hd
      obtain ⟨rfl, -, -⟩ := hd
      simp [refLen, lookupAll_length hl]
  | img t =>
    simp only [dispatchRef] at hd
    simp at hd

theorem searchFinish_ok_valid (env : Env) (names : List String) (nm bm : Bool) (th : Rat)
    (cr : Image) (entries : List (Image × Rat)) (n : Nat) (rx ry : Rat) (st st' : FinderState)
    (tm : TemplateMatch)
    (hn : bm = true → n = entries.length)
    (h : searchFinish env names nm bm th cr entries n rx ry st = (st', .ok tm))
    (hv : tm.valid = true) :
    tm.position.isSome = true ∧ th < tm.score := by
  simp only [searchFinish] at h
  cases he : (searchLoop env names nm bm th cr entries 0 rx ry st
      (List.replicate n 0) (List.replicate n (0, 0))).earlyRet with
  | some tm0 =>
    rw [he] at h
    simp only [Prod.mk.injEq, Except.ok.injEq] at h
    obtain ⟨-, rfl⟩ := h
    obtain ⟨h1, h2, h3⟩ := searchLoop_early env names nm bm th cr entries 0 rx ry st
      (List.replicate n 0) (List.replicate n (0, 0)) tm0 he
    exact ⟨h2, h3⟩
  | none =>
    rw [he] at h
    cases hm : listMax (searchLoop env names nm bm th cr entries 0 rx ry st
        (List.replicate n 0) (List.replicate n (0, 0))).scores with
    | none => rw [hm] at h; simp at h
    | some m =>
      rw [hm] at h
      by_cases hm0 : m > 0
      · simp only [if_pos hm0, Prod.mk.injEq, Except.ok.injEq] at h
        obtain ⟨-, rfl⟩ := h
        refine ⟨rfl, ?_⟩
        show th < m
        have hmem := listMax_mem hm
        cases bm with
        | false =>
          rw [searchLoop_fm_scores] at hmem
          have h0 := List.eq_of_mem_replicate hmem
          rw [h0] at hm0
          exact absurd hm0 (lt_irrefl 0)
        | true =>
          rw [hn rfl] at hmem
          have hb := searchLoop_bm env names nm th cr entries rx ry st [] [] rfl
          simp only [List.length_nil, List.nil_append] at hb
          rw [hb.2.1] at hmem
          obtain ⟨e0, he0, hrec⟩ := List.mem_map.mp hmem
          rcases recScore_cases env cr th e0 with hz | ⟨-, hgt⟩
          · rw [hrec] at hz
            rw [hz] at hm0
            exact absurd hm0 (lt_irrefl 0)
          · rw [hrec] at hgt
            exact hgt
      · simp only [if_neg hm0, Prod.mk.injEq, Except.ok.injEq] at h
        obtain ⟨-, rfl⟩ := h
        simp at hv

/-!  Claim theorems. -/

/-- C10: every call to `search` leaves the template store's entries (pixel
buffers and scale factors) unchanged; since the instance state consists of
exactly the store and the `last_res` diagnostic field, the only instance
state a call may mutate is `last_res`.  (The caller's ROI list is taken by
value and never written in the embedding, mirroring that the source only
rebinds the local unpacked scalars.) -/
theorem C10_store_unchanged (env : Env) (st : FinderState) (ref : Ref) (inpImg : Image)
    (thr? : Option Rat) (roi? : Option (Int × Int × Int × Int)) (nm bm : Bool) :
    ((search env st ref inpImg thr? roi? nm bm).1).templates = st.templates
    ∧ (search env st ref inpImg thr? roi? nm bm).1
      = { templates := st.templates,
          lastRes := ((search env st ref inpImg thr? roi? nm bm).1).lastRes } := by
  have h1 : ((search env st ref inpImg thr? roi? nm bm).1).templates = st.templates := by
    cases hd : dispatchRef st.templates ref bm with
    | error e => rw [search_err hd]
    | ok trip =>
      obtain ⟨entries, names, bm'⟩ := trip
      rw [search_eq hd]
      exact searchFinish_templates ..
  refine ⟨h1, ?_⟩
  cases hs : (search env st ref inpImg thr? roi? nm bm).1 with
  | mk T l =>
    rw [hs] at h1
    simp only at h1
    rw [h1]

/-- C9: for a single-key reference and for a raw pixel-buffer reference the
selection mode is forced to first-match, so `search` returns the identical
state and result whether the caller passes `best_match = true` or `false`. -/
theorem C9_list_flag_ignored (env : Env) (st : FinderState) (inpImg : Image)
    (thr? : Option Rat) (roi? : Option (Int × Int × Int × Int)) (nm b1 b2 : Bool)
    (k : String) (t : Image) :
    search env st (.key k) inpImg thr? roi? nm b1
      = search env st (.key k) inpImg thr? roi? nm b2
    ∧ search env st (.img t) inpImg thr? roi? nm b1
      = search env st (.img t) inpImg thr? roi? nm b2 :=
  ⟨rfl, rfl⟩

/-- C2 (amended): with an empty list as the reference, `search` does not
return a `TemplateMatch`: the final `max(scores)` runs on the empty score
list and raises `ValueError` (the state is returned unchanged). -/
theorem C2_empty_ref_error (env : Env) (st : FinderState) (inpImg : Image)
    (thr? : Option Rat) (roi? : Option (Int × Int × Int × Int)) (nm bm : Bool) :
    search env st (.keys []) inpImg thr? roi? nm bm = (st, .error .valueError) :=
  rfl

/-- C2 counterexample: on a concrete stub, `search` with an empty list
reference yields the `ValueError` exception and no `TemplateMatch` at all,
contradicting the claim that it returns an invalid result with score -1. -/
theorem C2_cex :
    (search (stubEnv (fun _ => 9/10)) stA (.keys []) bigImg (some (1/2)) none false false).2
      = .error .valueError
    ∧ ((search (stubEnv (fun _ => 9/10)) stA (.keys []) bigImg (some (1/2))
        none false false).2).toOption = none :=
  ⟨rfl, rfl⟩

/-- C8: a search whose reference is an unregistered key, or a list containing
one, raises the unknown-key error (`KeyError` in the source, the spec's
`UnknownTemplateKeyError`) instead of returning any `TemplateMatch`. -/
theorem C8_unknown_key (env : Env) (st : FinderState) (inpImg : Image)
    (thr? : Option Rat) (roi? : Option (Int × Int × Int × Int)) (nm bm : Bool)
    (k : String) (ks : List String)
    (h1 : lookupTemplate st.templates k = none) :
    (search env st (.key k) inpImg thr? roi? nm bm).2 = .error (.keyError k)
    ∧ (k ∈ ks → ∃ k2, lookupTemplate st.templates k2 = none
        ∧ (search env st (.keys ks) inpImg thr? roi? nm bm).2 = .error (.keyError k2)) := by
  constructor
  · have hd : dispatchRef st.templates (.key k) bm = .error (.keyError k) := by
      simp only [dispatchRef]
      rw [h1]
    rw [search_err hd]
  · intro hk
    obtain ⟨k2, h2, he⟩ := lookupAll_err hk h1
    have hd : dispatchRef st.templates (.keys ks) bm = .error (.keyError k2) := by
      simp only [dispatchRef]
      rw [he]
    exact ⟨k2, h2, by rw [search_err hd]⟩

/-- C8 witness: the store holding only "A" makes a search for "Z" (alone and
inside the list ["A", "Z"]) raise the unknown-key error. -/
theorem C8_witness :
    lookupTemplate stA.templates "Z" = none
    ∧ ((search (stubEnv (fun _ => 9/10)) stA (.key "Z") bigImg none none false false).2
        = .error (.keyError "Z")
      ∧ ("Z" ∈ ["A", "Z"] → ∃ k2, lookupTemplate stA.templates k2 = none
        ∧ (search (stubEnv (fun _ => 9/10)) stA (.keys ["A", "Z"]) bigImg
            none none false false).2 = .error (.keyError k2))) :=
  ⟨by decide, C8_unknown_key (stubEnv (fun _ => 9/10)) stA bigImg none none false false
    "Z" ["A", "Z"] (by decide)⟩

/-- C5: every `TemplateMatch` that `search` returns with `valid = true` has a
present position and a score that strictly exceeded the threshold used for
that search; when that threshold lies in the kernel's score range (at least
-1, as the spec requires of thresholds), the score is in particular not the
unevaluated sentinel -1. -/
theorem C5_valid_invariant (env : Env) (st : FinderState) (ref : Ref) (inpImg : Image)
    (thr? : Option Rat) (roi? : Option (Int × Int × Int × Int)) (nm bm : Bool)
    (st' : FinderState) (tm : TemplateMatch)
    (h : search env st ref inpImg thr? roi? nm bm = (st', .ok tm))
    (hth : -1 ≤ thr?.getD env.templateThreshold)
    (hv : tm.valid = true) :
    tm.position.isSome = true ∧ thr?.getD env.templateThreshold < tm.score
      ∧ tm.score ≠ -1 := by
  cases hd : dispatchRef st.templates ref bm with
  | error e =>
    rw [search_err hd] at h
    simp at h
  | ok trip =>
    obtain ⟨entries, names, bm'⟩ := trip
    rw [search_eq hd] at h
    have hn : bm' = true → refLen ref = entries.length := fun hb => by
      subst hb
      exact dispatchRef_bm_length hd
    obtain ⟨h1, h2⟩ := searchFinish_ok_valid env names nm bm'
      (thr?.getD env.templateThreshold) (croppedOf env inpImg roi?) entries (refLen ref)
      _ _ st st' tm hn h hv
    exact ⟨h1, h2, fun hc => absurd (hc ▸ h2) (not_lt.mpr hth)⟩

/-- C5 witness: a concrete best-match search over three stub candidates
returns a valid match, and the invariant evaluates as the theorem states. -/
theorem C5_witness :
    (search (stubEnv (fun tag => if tag = 1 then 2/5 else 9/10)) stABC (.keys ["A", "B", "C"])
        bigImg (some (3/10)) none false true
      = ({ templates := stABC.templates, lastRes := some 3 },
         .ok { name := some "B", score := 9/10, position := some (2, 2), valid := true }))
    ∧ (({ name := some "B", score := 9/10, position := some (2, 2),
          valid := true } : TemplateMatch).position.isSome = true
       ∧ (some ((3 : Rat)/10)).getD
             (stubEnv (fun tag => if tag = 1 then 2/5 else 9/10)).templateThreshold
           < ({ name := some "B", score := 9/10, position := some (2, 2),
                valid := true } : TemplateMatch).score
       ∧ ({ name := some "B", score := 9/10, position := some (2, 2),
            valid := true } : TemplateMatch).score ≠ -1) := by
  have h : search (stubEnv (fun tag => if tag = 1 then 2/5 else 9/10)) stABC
      (.keys ["A", "B", "C"]) bigImg (some (3/10)) none false true
      = ({ templates := stABC.templates, lastRes := some 3 },
         .ok { name := some "B", score := 9/10, position := some (2, 2), valid := true }) := by
    simp +decide only [search, searchFinish, searchLoop, dispatchRef, lookupAll,
      lookupTemplate, stubEnv, stABC, tmpl1, tmpl2, tmpl3, bigImg, croppedOf, resolveRoi,
      refLen, centerPoint, pyInt, listMax, firstIdxOf, List.find?, Option.map, Option.getD,
      List.replicate, List.getD, max_def]
    norm_num [search, searchFinish, searchLoop, dispatchRef, lookupAll, lookupTemplate,
      stubEnv, stABC, tmpl1, tmpl2, tmpl3, bigImg, croppedOf, resolveRoi, refLen,
      centerPoint, pyInt, listMax, firstIdxOf, List.find?, Option.map, Option.getD,
      List.replicate, List.getD, max_def]
  exact ⟨h, C5_valid_invariant _ _ _ _ _ _ _ _ _ _ h (by norm_num [stubEnv]) rfl⟩

theorem searchFinish_bm (env : Env) (names : List String) (nm : Bool) (th : Rat) (cr : Image)
    (entries : List (Image × Rat)) (rx ry : Rat) (st : FinderState) :
    searchFinish env names nm true th cr entries entries.length rx ry st
      = ((searchLoop env names nm true th cr entries 0 rx ry st
            (List.replicate entries.length 0) (List.replicate entries.length (0, 0))).st,
         match listMax (entries.map (recScore env cr th)) with
         | none => .error .valueError
         | some m =>
           if m > 0 then
             .ok { name := names[firstIdxOf (entries.map (recScore env cr th)) m]?,
                   score := m,
                   position := some ((recPointList env cr th nm entries rx ry).getD
                     (firstIdxOf (entries.map (recScore env cr th)) m) (0, 0)),
                   valid := true }
           else .ok {}) := by
  have hb := searchLoop_bm env names nm th cr entries rx ry st [] [] rfl
  simp only [List.length_nil, List.nil_append] at hb
  simp only [searchFinish, hb.1, hb.2.1, hb.2.2]
  cases listMax (entries.map (recScore env cr th)) with
  | none => rfl
  | some m =>
    by_cases hm0 : m > 0
    · simp only [if_pos hm0]
    · simp only [if_neg hm0]

/-- C3 counterexample: with threshold -1/2, which lies in the kernel's score
range [-1, 1], a single candidate evaluates to -1/4, exceeding the threshold,
yet the best-match search returns the invalid default result: the final
selection tests `max(scores) > 0`, not the threshold. -/
theorem C3_cex :
    candScore (stubEnv (fun _ => -(1/4))) (croppedOf (stubEnv (fun _ => -(1/4))) bigImg none)
        (tmpl1, 1) = some (-(1/4))
    ∧ ((-(1/2) : Rat) < -(1/4))
    ∧ ((-1 : Rat) ≤ -(1/2)) ∧ ((-(1/2) : Rat) ≤ 1)
    ∧ (search (stubEnv (fun _ => -(1/4))) stA (.keys ["A"]) bigImg (some (-(1/2)))
        none false true).2
      = .ok { name := none, score := -1, position := none, valid := false } := by
  refine ⟨?_, by norm_num, by norm_num, by norm_num, ?_⟩
  · simp [candScore, stubEnv, croppedOf, resolveRoi, bigImg, tmpl1]
  · simp +decide only [search, searchFinish, searchLoop, dispatchRef, lookupAll,
      lookupTemplate, stubEnv, stA, tmpl1, bigImg, croppedOf, resolveRoi,
      refLen, centerPoint, pyInt, listMax, firstIdxOf, List.find?, Option.map, Option.getD,
      List.replicate, List.getD, max_def]
    norm_num [search, searchFinish, searchLoop, dispatchRef, lookupAll, lookupTemplate,
      stubEnv, stA, tmpl1, bigImg, croppedOf, resolveRoi, refLen,
      centerPoint, pyInt, listMax, firstIdxOf, List.find?, Option.map, Option.getD,
      List.replicate, List.getD, max_def]

/-- C3 (amended): for a search over a non-empty list of known keys with
best_match = true and a threshold in [0, 1]: if some evaluated candidate's
maximal correlation score exceeds the threshold, the result is valid and
carries the maximal recorded score m — the greatest evaluated score, attained
by an evaluated candidate — together with the name and recorded position of
the earliest candidate attaining m; if no evaluated candidate exceeds the
threshold, the result is the invalid default with score -1 and absent
position.  Candidates skipped by the size guard are not evaluated.  For
negative thresholds the claim fails (see the counterexample): the final
`max(scores) > 0` test discards candidates with non-positive scores. -/
theorem C3_best_match (env : Env) (st : FinderState) (ks : List String)
    (entries : List (Image × Rat)) (inpImg : Image) (th : Rat)
    (roi? : Option (Int × Int × Int × Int)) (nm : Bool)
    (hlk : lookupAll st.templates ks = .ok entries)
    (hne : ks ≠ [])
    (hth0 : 0 ≤ th) (hth1 : th ≤ 1) :
    ((∃ e ∈ entries, ∃ v, candScore env (croppedOf env inpImg roi?) e = some v ∧ th < v) →
      ∃ tm m, (search env st (.keys ks) inpImg (some th) roi? nm true).2 = .ok tm
        ∧ tm.valid = true
        ∧ listMax (entries.map (recScore env (croppedOf env inpImg roi?) th)) = some m
        ∧ tm.score = m
        ∧ (∀ e ∈ entries, ∀ v, candScore env (croppedOf env inpImg roi?) e = some v → v ≤ m)
        ∧ (∃ e ∈ entries, candScore env (croppedOf env inpImg roi?) e = some m)
        ∧ tm.name
            = ks[firstIdxOf (entries.map (recScore env (croppedOf env inpImg roi?) th)) m]?
        ∧ tm.position = some ((recPointList env (croppedOf env inpImg roi?) th nm entries
              ((resolveRoi inpImg roi?).1 : Rat) ((resolveRoi inpImg roi?).2.1 : Rat)).getD
              (firstIdxOf (entries.map (recScore env (croppedOf env inpImg roi?) th)) m)
              (0, 0)))
    ∧ ((∀ e ∈ entries, ∀ v, candScore env (croppedOf env inpImg roi?) e = some v → v ≤ th) →
      (search env st (.keys ks) inpImg (some th) roi? nm true).2
        = .ok { name := none, score := -1, position := none, valid := false }) := by
  have hd : dispatchRef st.templates (.keys ks) true = .ok (entries, ks, true) := by
    simp only [dispatchRef]
    rw [hlk]
  have hlen : entries.length = ks.length := lookupAll_length hlk
  have hn : refLen (.keys ks) = entries.length := by simp [refLen, hlen]
  have hse := @search_eq env st (.keys ks) inpImg (some th) roi? nm true entries ks true hd
  rw [hn] at hse
  rw [searchFinish_bm] at hse
  have hgetd : (some th).getD env.templateThreshold = th := rfl
  rw [hgetd] at hse
  have hne' : entries ≠ [] := by
    intro h0
    rw [h0] at hlen
    exact hne (List.eq_nil_of_length_eq_zero hlen.symm)
  have hrecne : entries.map (recScore env (croppedOf env inpImg roi?) th) ≠ [] := by
    simpa using hne'
  obtain ⟨m, hm⟩ : ∃ m,
      listMax (entries.map (recScore env (croppedOf env inpImg roi?) th)) = some m := by
    cases hl2 : listMax (entries.map (recScore env (croppedOf env inpImg roi?) th)) with
    | none => exact absurd (listMax_eq_none.mp hl2) hrecne
    | some m => exact ⟨m, rfl⟩
  have hmem := listMax_mem hm
  have hub := listMax_le hm
  constructor
  · rintro ⟨e0, he0, v0, hcv0, hv0⟩
    have hrec0 : recScore env (croppedOf env inpImg roi?) th e0 = v0 :=
      recScore_of_hit hcv0 hv0
    have hv0m : v0 ≤ m := by
      have := hub _ (List.mem_map_of_mem (recScore env (croppedOf env inpImg roi?) th) he0)
      rw [hrec0] at this
      exact this
    have hm0 : m > 0 := lt_of_le_of_lt hth0 (lt_of_lt_of_le hv0 hv0m)
    refine ⟨{ name := ks[firstIdxOf (entries.map (recScore env (croppedOf env inpImg roi?) th)) m]?,
              score := m,
              position := some ((recPointList env (croppedOf env inpImg roi?) th nm entries
                ((resolveRoi inpImg roi?).1 : Rat) ((resolveRoi inpImg roi?).2.1 : Rat)).getD
                (firstIdxOf (entries.map (recScore env (croppedOf env inpImg roi?) th)) m)
                (0, 0)),
              valid := true }, m, ?_, rfl, hm, rfl, ?_, ?_, rfl, rfl⟩
    · rw [hse]
      simp only [hm, if_pos hm0]
    · intro e he v hcv
      by_cases hvt : th < v
      · have : recScore env (croppedOf env inpImg roi?) th e = v := recScore_of_hit hcv hvt
        have hmem2 := List.mem_map_of_mem (recScore env (croppedOf env inpImg roi?) th) he
        rw [this] at hmem2
        exact hub _ hmem2
      · exact le_trans (not_lt.mp hvt) (le_trans (le_of_lt hv0) hv0m)
    · obtain ⟨e1, he1, hrec1⟩ := List.mem_map.mp hmem
      rcases recScore_cases env (croppedOf env inpImg roi?) th e1 with hz | ⟨hc1, -⟩
      · rw [hrec1] at hz
        rw [hz] at hm0
        exact absurd hm0 (lt_irrefl 0)
      · rw [hrec1] at hc1
        exact ⟨e1, he1, hc1⟩
  · intro hmiss
    have hz : m = 0 := by
      obtain ⟨e1, he1, hrec1⟩ := List.mem_map.mp hmem
      rw [← hrec1]
      exact recScore_of_miss (fun v hv => hmiss e1 he1 v hv)
    rw [hse]
    simp only [hm, hz]
    rw [if_neg (lt_irrefl 0)]

/-- C3 witness: three stub candidates evaluating to scores [2/5, 9/10, 9/10]
against threshold 3/10 satisfy the amended theorem's hypotheses, and the
valid best-match result with the maximal recorded score follows. -/
theorem C3_witness :
    lookupAll stABC.templates ["A", "B", "C"] = .ok [(tmpl1, 1), (tmpl2, 1), (tmpl3, 1)]
    ∧ (∃ tm m,
        (search (stubEnv (fun tag => if tag = 1 then 2/5 else 9/10)) stABC
            (.keys ["A", "B", "C"]) bigImg (some (3/10)) none false true).2 = .ok tm
        ∧ tm.valid = true
        ∧ listMax ([(tmpl1, 1), (tmpl2, 1), (tmpl3, 1)].map
            (recScore (stubEnv (fun tag => if tag = 1 then 2/5 else 9/10))
              (croppedOf (stubEnv (fun tag => if tag = 1 then 2/5 else 9/10)) bigImg none)
              (3/10))) = some m
        ∧ tm.score = m
        ∧ (∀ e ∈ [(tmpl1, 1), (tmpl2, 1), (tmpl3, 1)], ∀ v,
            candScore (stubEnv (fun tag => if tag = 1 then 2/5 else 9/10))
              (croppedOf (stubEnv (fun tag => if tag = 1 then 2/5 else 9/10)) bigImg none) e
              = some v → v ≤ m)
        ∧ (∃ e ∈ [(tmpl1, 1), (tmpl2, 1), (tmpl3, 1)],
            candScore (stubEnv (fun tag => if tag = 1 then 2/5 else 9/10))
              (croppedOf (stubEnv (fun tag => if tag = 1 then 2/5 else 9/10)) bigImg none) e
              = some m)
        ∧ tm.name = ["A", "B", "C"][firstIdxOf ([(tmpl1, 1), (tmpl2, 1), (tmpl3, 1)].map
            (recScore (stubEnv (fun tag => if tag = 1 then 2/5 else 9/10))
              (croppedOf (stubEnv (fun tag => if tag = 1 then 2/5 else 9/10)) bigImg none)
              (3/10))) m]?
        ∧ tm.position = some ((recPointList (stubEnv (fun tag => if tag = 1 then 2/5 else 9/10))
            (croppedOf (stubEnv (fun tag => if tag = 1 then 2/5 else 9/10)) bigImg none)
            (3/10) false [(tmpl1, 1), (tmpl2, 1), (tmpl3, 1)]
            ((resolveRoi bigImg none).1 : Rat) ((resolveRoi bigImg none).2.1 : Rat)).getD
            (firstIdxOf ([(tmpl1, 1), (tmpl2, 1), (tmpl3, 1)].map
              (recScore (stubEnv (fun tag => if tag = 1 then 2/5 else 9/10))
                (croppedOf (stubEnv (fun tag => if tag = 1 then 2/5 else 9/10)) bigImg none)
                (3/10))) m) (0, 0))) := by
  refine ⟨rfl, (C3_best_match (stubEnv (fun tag => if tag = 1 then 2/5 else 9/10)) stABC
    ["A", "B", "C"] [(tmpl1, 1), (tmpl2, 1), (tmpl3, 1)] bigImg (3/10) none false rfl
    (by simp) (by norm_num) (by norm_num)).1
    ⟨(tmpl2, 1), by simp, 9/10, ?_, by norm_num⟩⟩
  simp [candScore, croppedOf, resolveRoi, stubEnv, bigImg, tmpl2]

/-- C6: in best-match mode, when two candidates that exceed the threshold tie
at the maximal score v, the returned match is valid with score v and is named
after the candidate at the earliest index whose recorded score attains v — an
index at most the first of the two tied positions, with no earlier index
attaining v.  The witness instantiates the spec's stub of three candidates
scoring [2/5, 9/10, 9/10] against threshold 3/10: the result is the second
candidate. -/
theorem C6_tie_break (env : Env) (st : FinderState) (ks : List String)
    (entries : List (Image × Rat)) (inpImg : Image) (th : Rat)
    (roi? : Option (Int × Int × Int × Int)) (nm : Bool) (i j : Nat) (v : Rat)
    (ei ej : Image × Rat)
    (hlk : lookupAll st.templates ks = .ok entries)
    (hth0 : 0 ≤ th)
    (hij : i < j)
    (hi : entries[i]? = some ei)
    (hci : candScore env (croppedOf env inpImg roi?) ei = some v)
    (hj : entries[j]? = some ej)
    (hcj : candScore env (croppedOf env inpImg roi?) ej = some v)
    (hv : th < v)
    (hmax : ∀ e ∈ entries, ∀ w,
      candScore env (croppedOf env inpImg roi?) e = some w → w ≤ v) :
    ∃ tm i0, (search env st (.keys ks) inpImg (some th) roi? nm true).2 = .ok tm
      ∧ tm.valid = true
      ∧ tm.score = v
      ∧ i0 ≤ i
      ∧ tm.name = ks[i0]?
      ∧ (∃ e0, entries[i0]? = some e0
          ∧ candScore env (croppedOf env inpImg roi?) e0 = some v)
      ∧ ∀ l, l < i0 →
          (entries.map (recScore env (croppedOf env inpImg roi?) th))[l]? ≠ some v := by
  have hd : dispatchRef st.templates (.keys ks) true = .ok (entries, ks, true) := by
    simp only [dispatchRef]
    rw [hlk]
  have hlen : entries.length = ks.length := lookupAll_length hlk
  have hn : refLen (.keys ks) = entries.length := by simp [refLen, hlen]
  have hse := @search_eq env st (.keys ks) inpImg (some th) roi? nm true entries ks true hd
  rw [hn, searchFinish_bm] at hse
  have hgetd : (some th).getD env.templateThreshold = th := rfl
  rw [hgetd] at hse
  have hv0 : (0 : Rat) < v := lt_of_le_of_lt hth0 hv
  have hreci : (entries.map (recScore env (croppedOf env inpImg roi?) th))[i]? = some v := by
    rw [List.getElem?_map, hi]
    simp [recScore_of_hit hci hv]
  have hvmem : v ∈ entries.map (recScore env (croppedOf env inpImg roi?) th) :=
    List.getElem?_mem hreci
  obtain ⟨m, hm⟩ : ∃ m,
      listMax (entries.map (recScore env (croppedOf env inpImg roi?) th)) = some m := by
    cases hl2 : listMax (entries.map (recScore env (croppedOf env inpImg roi?) th)) with
    | none =>
      rw [listMax_eq_none] at hl2
      rw [hl2] at hvmem
      cases hvmem
    | some m => exact ⟨m, rfl⟩
  have hub := listMax_le hm
  have hmv : m = v := by
    have h1 : v ≤ m := hub v hvmem
    have hmem := listMax_mem hm
    obtain ⟨e1, he1, hrec1⟩ := List.mem_map.mp hmem
    rcases recScore_cases env (croppedOf env inpImg roi?) th e1 with hz | ⟨hc1, hgt1⟩
    · have hm00 : m = 0 := by rw [← hrec1, hz]
      have hv00 : v ≤ 0 := hm00 ▸ h1
      exact absurd hv0 (not_lt.mpr hv00)
    · rw [hrec1] at hc1
      exact le_antisymm (hmax e1 he1 m hc1) h1
  subst hmv
  have hget : (entries.map (recScore env (croppedOf env inpImg roi?) th))[firstIdxOf
      (entries.map (recScore env (croppedOf env inpImg roi?) th)) m]? = some m :=
    firstIdxOf_getElem hvmem
  cases hei0 : entries[firstIdxOf
      (entries.map (recScore env (croppedOf env inpImg roi?) th)) m]? with
  | none =>
    rw [List.getElem?_map, hei0] at hget
    simp at hget
  | some e0 =>
    have hrec0 : recScore env (croppedOf env inpImg roi?) th e0 = m := by
      rw [List.getElem?_map, hei0] at hget
      simpa using hget
    have hc0 : candScore env (croppedOf env inpImg roi?) e0 = some m := by
      rcases recScore_cases env (croppedOf env inpImg roi?) th e0 with hz | ⟨hc1, -⟩
      · rw [hrec0] at hz
        rw [hz] at hv0
        exact absurd hv0 (lt_irrefl 0)
      · rw [hrec0] at hc1
        exact hc1
    refine ⟨{ name := ks[firstIdxOf
                  (entries.map (recScore env (croppedOf env inpImg roi?) th)) m]?,
              score := m,
              position := some ((recPointList env (croppedOf env inpImg roi?) th nm entries
                ((resolveRoi inpImg roi?).1 : Rat) ((resolveRoi inpImg roi?).2.1 : Rat)).getD
                (firstIdxOf (entries.map (recScore env (croppedOf env inpImg roi?) th)) m)
                (0, 0)),
              valid := true },
           firstIdxOf (entries.map (recScore env (croppedOf env inpImg roi?) th)) m,
           ?_, rfl, rfl, firstIdxOf_le hreci, rfl, ⟨e0, hei0, hc0⟩,
           fun l hl => firstIdxOf_lt_ne hl⟩
    rw [hse]
    simp only [hm, if_pos hv0]

/-- C6 witness: the spec's stub — three candidates scoring [2/5, 9/10, 9/10]
against threshold 3/10 — ties at 9/10 on the second and third candidates; the
tie-break theorem applies, and the evaluated search indeed returns the second
candidate "B". -/
theorem C6_witness :
    ((0 : Rat) ≤ 3/10)
    ∧ (∃ tm i0, (search (stubEnv (fun tag => if tag = 1 then 2/5 else 9/10)) stABC
          (.keys ["A", "B", "C"]) bigImg (some (3/10)) none false true).2 = .ok tm
        ∧ tm.valid = true
        ∧ tm.score = 9/10
        ∧ i0 ≤ 1
        ∧ tm.name = ["A", "B", "C"][i0]?
        ∧ (∃ e0, [(tmpl1, 1), (tmpl2, 1), (tmpl3, 1)][i0]? = some e0
            ∧ candScore (stubEnv (fun tag => if tag = 1 then 2/5 else 9/10))
                (croppedOf (stubEnv (fun tag => if tag = 1 then 2/5 else 9/10)) bigImg none) e0
                = some (9/10))
        ∧ ∀ l, l < i0 →
            ([(tmpl1, 1), (tmpl2, 1), (tmpl3, 1)].map
              (recScore (stubEnv (fun tag => if tag = 1 then 2/5 else 9/10))
                (croppedOf (stubEnv (fun tag => if tag = 1 then 2/5 else 9/10)) bigImg none)
                (3/10)))[l]? ≠ some (9/10))
    ∧ (search (stubEnv (fun tag => if tag = 1 then 2/5 else 9/10)) stABC
        (.keys ["A", "B", "C"]) bigImg (some (3/10)) none false true).2
      = .ok { name := some "B", score := 9/10, position := some (2, 2), valid := true } := by
  refine ⟨by norm_num,
    C6_tie_break (stubEnv (fun tag => if tag = 1 then 2/5 else 9/10)) stABC ["A", "B", "C"]
      [(tmpl1, 1), (tmpl2, 1), (tmpl3, 1)] bigImg (3/10) none false 1 2 (9/10)
      (tmpl2, 1) (tmpl3, 1) rfl (by norm_num) (by omega) (by simp) ?_ (by simp) ?_
      (by norm_num) ?_, ?_⟩
  · simp [candScore, croppedOf, resolveRoi, stubEnv, bigImg, tmpl2]
  · simp [candScore, croppedOf, resolveRoi, stubEnv, bigImg, tmpl3]
  · intro e he w hw
    simp only [List.mem_cons, List.not_mem_nil, or_false] at he
    rcases he with rfl | rfl | rfl <;>
      simp [candScore, croppedOf, resolveRoi, stubEnv, bigImg, tmpl1, tmpl2, tmpl3] at hw <;>
      rw [← hw] <;> norm_num
  · simp +decide only [search, searchFinish, searchLoop, dispatchRef, lookupAll,
      lookupTemplate, stubEnv, stABC, tmpl1, tmpl2, tmpl3, bigImg, croppedOf, resolveRoi,
      refLen, centerPoint, pyInt, listMax, firstIdxOf, List.find?, Option.map, Option.getD,
      List.replicate, List.getD, max_def]
    norm_num [search, searchFinish, searchLoop, dispatchRef, lookupAll, lookupTemplate,
      stubEnv, stABC, tmpl1, tmpl2, tmpl3, bigImg, croppedOf, resolveRoi, refLen,
      centerPoint, pyInt, listMax, firstIdxOf, List.find?, Option.map, Option.getD,
      List.replicate, List.getD, max_def]

/-- C4 counterexample: store scales are [2, 1] — candidate "A" (scale 2)
misses, candidate "B" (scale 1) hits at anchor (0, 0) — and the ROI origin is
(10, 0).  The code returns position (22, 2) for "B", because the loop already
multiplied the ROI origin by candidate "A"'s scale factor 2, while the
spec's own-scale-only formula for "B" predicts (12, 2). -/
theorem C4_cex :
    (search (stubEnv (fun tag => if tag = 1 then 0 else 9/10)) stAB2 (.keys ["A", "B"])
        bigImg (some (1/2)) (some (10, 0, 50, 50)) false false).2
      = .ok { name := some "B", score := 9/10, position := some (22, 2), valid := true }
    ∧ specCenterPosition (stubEnv (fun tag => if tag = 1 then 0 else 9/10)) false tmpl2 1 0 0
        10 0 = (12, 2)
    ∧ ((22, 2) : Int × Int) ≠ (12, 2) := by
  refine ⟨?_, ?_, by decide⟩
  · simp +decide only [search, searchFinish, searchLoop, dispatchRef, lookupAll,
      lookupTemplate, stubEnv, stAB2, tmpl1, tmpl2, bigImg, croppedOf, resolveRoi,
      refLen, centerPoint, pyInt, listMax, firstIdxOf, List.find?, Option.map, Option.getD,
      List.replicate, List.getD, max_def]
    norm_num [search, searchFinish, searchLoop, dispatchRef, lookupAll, lookupTemplate,
      stubEnv, stAB2, tmpl1, tmpl2, bigImg, croppedOf, resolveRoi, refLen,
      centerPoint, pyInt, listMax, firstIdxOf, List.find?, Option.map, Option.getD,
      List.replicate, List.getD, max_def]
  · norm_num [specCenterPosition, centerPoint, pyInt, tmpl2, stubEnv]

/-- C4 (amended): in a first-match search, the candidate that first exceeds
the threshold gets its centre position computed with the ROI origin
multiplied by the running product of the scale factors of all candidates up
to and including itself — the loop's `rx *= scale` accumulates across
iterations — not by its own scale factor alone.  The two coincide exactly
when every preceding candidate has scale factor 1. -/
theorem C4_center_position (env : Env) (st : FinderState) (ks : List String)
    (entries : List (Image × Rat)) (inpImg : Image) (thr? : Option Rat)
    (roi? : Option (Int × Int × Int × Int)) (nm : Bool) (i : Nat) (t : Image) (s v : Rat)
    (mx my : Int)
    (hlk : lookupAll st.templates ks = .ok entries)
    (hi : entries[i]? = some (t, s))
    (hbefore : ∀ j, j < i → ∀ e, entries[j]? = some e →
      candHit env (croppedOf env inpImg roi?) (thr?.getD env.templateThreshold) e = false)
    (hg : (env.resize (croppedOf env inpImg roi?) s).h > t.h
        ∧ (env.resize (croppedOf env inpImg roi?) s).w > t.w)
    (hmm : env.minMaxLoc (env.matchTemplate (env.resize (croppedOf env inpImg roi?) s) t)
        = (v, mx, my))
    (hv : thr?.getD env.templateThreshold < v) :
    (search env st (.keys ks) inpImg thr? roi? nm false).2
      = .ok { name := ks[i]?, score := v,
              position := some (centerPoint env nm t s mx my
                (((resolveRoi inpImg roi?).1 : Rat)
                  * ((entries.take (i + 1)).map Prod.snd).prod)
                (((resolveRoi inpImg roi?).2.1 : Rat)
                  * ((entries.take (i + 1)).map Prod.snd).prod)),
              valid := true } := by
  have hd : dispatchRef st.templates (.keys ks) false = .ok (entries, ks, false) := by
    simp only [dispatchRef]
    rw [hlk]
  rw [search_eq hd]
  have hfirst := searchLoop_fm_first env ks nm (thr?.getD env.templateThreshold)
    (croppedOf env inpImg roi?) entries i 0 ((resolveRoi inpImg roi?).1 : Rat)
    ((resolveRoi inpImg roi?).2.1 : Rat) st
    (List.replicate (refLen (.keys ks)) 0) (List.replicate (refLen (.keys ks)) (0, 0))
    hi hbefore hg hmm hv
  simp only [searchFinish, hfirst, Nat.zero_add]

/-- C4 witness: at the counterexample input (scales [2, 1], ROI origin
(10, 0)), the amended formula — ROI origin times the running product 2 of the
scale factors up to candidate "B" — is exactly what search returns. -/
theorem C4_witness :
    lookupAll stAB2.templates ["A", "B"] = .ok [(tmpl1, 2), (tmpl2, 1)]
    ∧ (search (stubEnv (fun tag => if tag = 1 then 0 else 9/10)) stAB2 (.keys ["A", "B"])
        bigImg (some (1/2)) (some (10, 0, 50, 50)) false false).2
      = .ok { name := ["A", "B"][1]?, score := 9/10,
              position := some (centerPoint (stubEnv (fun tag => if tag = 1 then 0 else 9/10))
                false tmpl2 1 0 0
                (((resolveRoi bigImg (some (10, 0, 50, 50))).1 : Rat)
                  * (([(tmpl1, 2), (tmpl2, 1)].take 2).map Prod.snd).prod)
                (((resolveRoi bigImg (some (10, 0, 50, 50))).2.1 : Rat)
                  * (([(tmpl1, 2), (tmpl2, 1)].take 2).map Prod.snd).prod)),
              valid := true } := by
  refine ⟨rfl, C4_center_position (stubEnv (fun tag => if tag = 1 then 0 else 9/10)) stAB2
    ["A", "B"] [(tmpl1, 2), (tmpl2, 1)] bigImg (some (1/2)) (some (10, 0, 50, 50)) false
    1 tmpl2 1 (9/10) 0 0 rfl rfl ?_ ?_ ?_ (by norm_num)⟩
  · intro j hj e he
    have hj0 : j = 0 := by omega
    subst hj0
    simp only [List.getElem?_cons_zero, Option.some.injEq] at he
    subst he
    simp [candHit, candScore, croppedOf, resolveRoi, stubEnv, bigImg, tmpl1]
  · simp [croppedOf, resolveRoi, stubEnv, bigImg, tmpl2]
  · simp [croppedOf, resolveRoi, stubEnv, bigImg, tmpl2]

/-- C1 (amended): the poll loop returns a valid Match Engine result
immediately — regardless of elapsed time — only on iterations where the
loading-state suppression heuristic is inactive or the reference list
contains the "LOADING" sentinel.  The suppression gates the Found terminal
exactly as it gates timeout expiry: both checks sit inside the same guard. -/
theorem C1_found_terminal (W : WaitEnv) (ks : List String)
    (roi? : Option (Int × Int × Int × Int)) (th : Rat) (tout : Option Rat) (bm : Bool)
    (st st' : FinderState) (tm : TemplateMatch) (n : Nat)
    (hs : search W.env st (.keys ks) (W.grab n) (some th) roi? false bm = (st', .ok tm))
    (hv : tm.valid = true)
    (hgate : ¬ W.avgStrip (W.grab n) < 1 ∨ "LOADING" ∈ ks) :
    sawStep W ks roi? th tout bm st n = (st', .ret (.ok tm)) := by
  simp only [sawStep, hs]
  rw [if_pos hgate, if_pos hv]

/-- C1 counterexample: at iteration 0 the Match Engine result is valid
(score 9/10 over threshold 1/2), but the captured frame keeps the loading
heuristic active (strip average 0) and "LOADING" is not in the reference,
so the iteration continues instead of returning the valid result. -/
theorem C1_cex :
    (search waitLoadingValid.env stX (.keys ["X"]) (waitLoadingValid.grab 0) (some (1/2))
        none false false).2
      = .ok { name := some "X", score := 9/10, position := some (2, 2), valid := true }
    ∧ waitLoadingValid.avgStrip (waitLoadingValid.grab 0) < 1
    ∧ ("LOADING" ∉ ["X"])
    ∧ (sawStep waitLoadingValid ["X"] none (1/2) (some 10) false stX 0).2 = SawStep.cont := by
  refine ⟨?_, by norm_num [waitLoadingValid], by decide, ?_⟩
  · simp +decide only [search, searchFinish, searchLoop, dispatchRef, lookupAll,
      lookupTemplate, stubEnv, stX, tmpl1, bigImg, croppedOf, resolveRoi, waitLoadingValid,
      refLen, centerPoint, pyInt, listMax, firstIdxOf, List.find?, Option.map, Option.getD,
      List.replicate, List.getD, max_def]
    norm_num [search, searchFinish, searchLoop, dispatchRef, lookupAll, lookupTemplate,
      stubEnv, stX, tmpl1, bigImg, croppedOf, resolveRoi, waitLoadingValid, refLen,
      centerPoint, pyInt, listMax, firstIdxOf, List.find?, Option.map, Option.getD,
      List.replicate, List.getD, max_def]
  · simp +decide only [sawStep, search, searchFinish, searchLoop, dispatchRef, lookupAll,
      lookupTemplate, stubEnv, stX, tmpl1, bigImg, croppedOf, resolveRoi, waitLoadingValid,
      refLen, centerPoint, pyInt, listMax, firstIdxOf, List.find?, Option.map, Option.getD,
      List.replicate, List.getD, max_def]
    norm_num [sawStep, search, searchFinish, searchLoop, dispatchRef, lookupAll,
      lookupTemplate, stubEnv, stX, tmpl1, bigImg, croppedOf, resolveRoi, waitLoadingValid,
      refLen, centerPoint, pyInt, listMax, firstIdxOf, List.find?, Option.map, Option.getD,
      List.replicate, List.getD, max_def]

/-- C1 witness: with the loading heuristic inactive (strip average 5), the
amended theorem applies at iteration 0 and the loop returns the valid result
immediately. -/
theorem C1_witness :
    (search waitClearValid.env stX (.keys ["X"]) (waitClearValid.grab 0) (some (1/2))
        none false false
      = ({ templates := stX.templates, lastRes := some 1 },
         .ok { name := some "X", score := 9/10, position := some (2, 2), valid := true }))
    ∧ sawStep waitClearValid ["X"] none (1/2) (some 10) false stX 0
      = ({ templates := stX.templates, lastRes := some 1 },
         .ret (.ok { name := some "X", score := 9/10, position := some (2, 2),
                     valid := true })) := by
  have hs : search waitClearValid.env stX (.keys ["X"]) (waitClearValid.grab 0) (some (1/2))
      none false false
      = ({ templates := stX.templates, lastRes := some 1 },
         .ok { name := some "X", score := 9/10, position := some (2, 2), valid := true }) := by
    simp +decide only [search, searchFinish, searchLoop, dispatchRef, lookupAll,
      lookupTemplate, stubEnv, stX, tmpl1, bigImg, croppedOf, resolveRoi, waitClearValid,
      refLen, centerPoint, pyInt, listMax, firstIdxOf, List.find?, Option.map, Option.getD,
      List.replicate, List.getD, max_def]
    norm_num [search, searchFinish, searchLoop, dispatchRef, lookupAll, lookupTemplate,
      stubEnv, stX, tmpl1, bigImg, croppedOf, resolveRoi, waitClearValid, refLen,
      centerPoint, pyInt, listMax, firstIdxOf, List.find?, Option.map, Option.getD,
      List.replicate, List.getD, max_def]
  exact ⟨hs, C1_found_terminal waitClearValid ["X"] none (1/2) (some 10) false stX _ _ 0 hs
    rfl (Or.inl (by norm_num [waitClearValid]))⟩

/-- C7 (amended): with timeout 0, if the frame captured at the first
iteration is non-matching (the engine returns an invalid result), does not
trigger the loading suppression (strip average at least 1), and measurable
time has passed by the first timeout check, then search_and_wait terminates
after the very first iteration and returns that invalid result.  Without the
suppression condition the claim fails: a stub that always captures an
all-black (non-matching) frame keeps the suppression active and the loop
never returns (see the counterexample). -/
theorem C7_timeout_zero (W : WaitEnv) (ks : List String)
    (roi? : Option (Int × Int × Int × Int)) (th : Rat) (bm : Bool)
    (st st' : FinderState) (tm : TemplateMatch)
    (hs : search W.env st (.keys ks) (W.grab 0) (some th) roi? false bm = (st', .ok tm))
    (hv : tm.valid = false)
    (hnl : ¬ W.avgStrip (W.grab 0) < 1)
    (ht : W.timeAt 0 - W.startTime > 0) :
    searchAndWaitFuel W ks roi? (some th) (some 0) bm st 1 = some (.ok tm)
    ∧ tm.valid = false := by
  refine ⟨?_, hv⟩
  simp only [searchAndWaitFuel, Option.getD, sawRun, sawStep, hs]
  rw [if_pos (Or.inl hnl), if_neg (by rw [hv]; exact Bool.false_ne_true), if_pos ht]

/-- C7 counterexample: a capture stub that always returns an all-black frame
is non-matching (the sole candidate scores 0, below threshold 1/2) and the
reference ["X"] does not contain "LOADING", yet with timeout 0 the loop never
reaches a terminal under any iteration bound: the black frame keeps the
loading suppression active on every iteration. -/
theorem C7_cex :
    (search waitBlackStub.env stX (.keys ["X"]) (waitBlackStub.grab 0) (some (1/2))
        none false false).2
      = .ok { name := none, score := -1, position := none, valid := false }
    ∧ ("LOADING" ∉ ["X"])
    ∧ waitBlackStub.timeAt 0 - waitBlackStub.startTime > 0
    ∧ sawNeverReturns waitBlackStub ["X"] none (some (1/2)) (some 0) false stX := by
  have hstep1 : sawStep waitBlackStub ["X"] none (1/2) (some 0) false stX 0
      = ({ templates := stX.templates, lastRes := some 1 }, .cont) := by
    simp +decide only [sawStep, search, searchFinish, searchLoop, dispatchRef, lookupAll,
      lookupTemplate, stubEnv, stX, tmpl1, blackImg, croppedOf, resolveRoi, waitBlackStub,
      refLen, centerPoint, pyInt, listMax, firstIdxOf, List.find?, Option.map, Option.getD,
      List.replicate, List.getD, max_def]
    norm_num [sawStep, search, searchFinish, searchLoop, dispatchRef, lookupAll,
      lookupTemplate, stubEnv, stX, tmpl1, blackImg, croppedOf, resolveRoi, waitBlackStub,
      refLen, centerPoint, pyInt, listMax, firstIdxOf, List.find?, Option.map, Option.getD,
      List.replicate, List.getD, max_def]
  have hstepn : ∀ n, sawStep waitBlackStub ["X"] none (1/2) (some 0) false
      { templates := stX.templates, lastRes := some 1 } n
      = ({ templates := stX.templates, lastRes := some 1 }, .cont) := by
    intro n
    simp +decide only [sawStep, search, searchFinish, searchLoop, dispatchRef, lookupAll,
      lookupTemplate, stubEnv, stX, tmpl1, blackImg, croppedOf, resolveRoi, waitBlackStub,
      refLen, centerPoint, pyInt, listMax, firstIdxOf, List.find?, Option.map, Option.getD,
      List.replicate, List.getD, max_def]
    norm_num [sawStep, search, searchFinish, searchLoop, dispatchRef, lookupAll,
      lookupTemplate, stubEnv, stX, tmpl1, blackImg, croppedOf, resolveRoi, waitBlackStub,
      refLen, centerPoint, pyInt, listMax, firstIdxOf, List.find?, Option.map, Option.getD,
      List.replicate, List.getD, max_def]
  have hrun : ∀ fuel n, sawRun waitBlackStub ["X"] none (1/2) (some 0) false
      { templates := stX.templates, lastRes := some 1 } fuel n = none := by
    intro fuel
    induction fuel with
    | zero => intro n; rfl
    | succ f ih =>
      intro n
      simp only [sawRun, hstepn n]
      exact ih (n + 1)
  refine ⟨?_, by decide, by norm_num [waitBlackStub], ?_⟩
  · simp +decide only [search, searchFinish, searchLoop, dispatchRef, lookupAll,
      lookupTemplate, stubEnv, stX, tmpl1, blackImg, croppedOf, resolveRoi, waitBlackStub,
      refLen, centerPoint, pyInt, listMax, firstIdxOf, List.find?, Option.map, Option.getD,
      List.replicate, List.getD, max_def]
    norm_num [search, searchFinish, searchLoop, dispatchRef, lookupAll, lookupTemplate,
      stubEnv, stX, tmpl1, blackImg, croppedOf, resolveRoi, waitBlackStub, refLen,
      centerPoint, pyInt, listMax, firstIdxOf, List.find?, Option.map, Option.getD,
      List.replicate, List.getD, max_def]
  · intro fuel
    cases fuel with
    | zero => rfl
    | succ f =>
      simp only [searchAndWaitFuel, Option.getD, sawRun, hstep1]
      exact hrun f 1

/-- C7 witness: a stub whose frames are non-matching but do not look like the
loading state (strip average 5), with the clock one unit past the start: the
amended theorem applies and the loop returns the invalid result after one
iteration. -/
theorem C7_witness :
    (search waitClearMiss.env stX (.keys ["X"]) (waitClearMiss.grab 0) (some (1/2))
        none false false
      = ({ templates := stX.templates, lastRes := some 1 },
         .ok { name := none, score := -1, position := none, valid := false }))
    ∧ (searchAndWaitFuel waitClearMiss ["X"] none (some (1/2)) (some 0) false stX 1
        = some (.ok { name := none, score := -1, position := none, valid := false })
      ∧ ({ name := none, score := -1, position := none,
           valid := false } : TemplateMatch).valid = false) := by
  have hs : search waitClearMiss.env stX (.keys ["X"]) (waitClearMiss.grab 0) (some (1/2))
      none false false
      = ({ templates := stX.templates, lastRes := some 1 },
         .ok { name := none, score := -1, position := none, valid := false }) := by
    simp +decide only [search, searchFinish, searchLoop, dispatchRef, lookupAll,
      lookupTemplate, stubEnv, stX, tmpl1, bigImg, croppedOf, resolveRoi, waitClearMiss,
      refLen, centerPoint, pyInt, listMax, firstIdxOf, List.find?, Option.map, Option.getD,
      List.replicate, List.getD, max_def]
    norm_num [search, searchFinish, searchLoop, dispatchRef, lookupAll, lookupTemplate,
      stubEnv, stX, tmpl1, bigImg, croppedOf, resolveRoi, waitClearMiss, refLen,
      centerPoint, pyInt, listMax, firstIdxOf, List.find?, Option.map, Option.getD,
      List.replicate, List.getD, max_def]
  exact ⟨hs, C7_timeout_zero waitClearMiss ["X"] none (1/2) false stX _ _ hs rfl
    (by norm_num [waitClearMiss]) (by norm_num [waitClearMiss])⟩
